import Mathlib

/-
Verification of the cloud subsystem of konrad (src/konrad/cloud.py).

The Python module is shallowly embedded over exact rationals (ℚ): numpy float
arrays become functions `Fin n → ℚ` or lists `List ℚ`, per-band arrays become
`Fin n → Fin 14 → ℚ` (shortwave) and `Fin n → Fin 16 → ℚ` (longwave).
Python exceptions are modelled with `Except PyErr`.  IEEE NaN, where it matters
(shift_property's handling of a missing convective top), is modelled by
`Option ℚ` with `none` playing the role of NaN, and the distinction between the
Python object `np.nan` and a NaN value produced by computation or read out of an
array is made explicit by the type `PyScalar` (the source tests the anchor with
the object-identity operator, `norm_new is not np.nan`, cloud.py line 184).
-/

/-- Python exceptions raised by the cloud module: ValueError (wrong array
size / incompatible grids), TypeError (unsupported input kind, unexpected
keyword argument, unsupported operand types for +) and AttributeError
(attribute read before assignment). -/
inductive PyErr where
  | valueError
  | typeError
  | attributeError
deriving DecidableEq, Repr

/-- Model of a one-dimensional sympl DataArray on mid_levels: the stored
values and the units attribute. -/
structure PDataArray where
  values : List ℚ
  units : String
deriving DecidableEq, Repr

/-- Model of a two-dimensional sympl DataArray on (mid_levels, bands): rows are
levels, row entries are bands. -/
structure WDataArray where
  values : List (List ℚ)
  units : String
deriving DecidableEq, Repr

/-- The kinds of value accepted by get_p_data_array: a Python scalar, a 1-D
ndarray, a 2-D ndarray, an already tagged DataArray, or anything else. -/
inductive PInput where
  | scalar (x : ℚ)
  | array1 (xs : List ℚ)
  | array2 (xss : List (List ℚ))
  | tagged (d : PDataArray)
  | other
deriving DecidableEq, Repr

/-- The kinds of value accepted by get_waveband_data_array (the tagged field
here is a two-dimensional DataArray). -/
inductive WInput where
  | scalar (x : ℚ)
  | array1 (xs : List ℚ)
  | array2 (xss : List (List ℚ))
  | tagged (d : WDataArray)
  | other
deriving DecidableEq, Repr

/-- get_p_data_array (cloud.py lines 14-35).  A DataArray is returned as is
(no shape or unit check); an ndarray must have shape (numlevels,), otherwise
ValueError; a scalar is broadcast over all levels; anything else is TypeError. -/
def get_p_data_array (values : PInput) (units : String) (numlevels : ℕ) :
    Except PyErr PDataArray :=
  match values with
  | .tagged d => .ok d
  | .array1 xs =>
      if xs.length = numlevels then .ok ⟨xs, units⟩ else .error .valueError
  | .array2 _ => .error .valueError
  | .scalar x => .ok ⟨List.replicate numlevels x, units⟩
  | .other => .error .typeError

/-- Number of spectral bands (cloud.py lines 44-49): 14 shortwave, 16 longwave. -/
def numbandsOf (sw : Bool) : ℕ := if sw then 14 else 16

/-- get_waveband_data_array (cloud.py lines 38-72).  A DataArray is returned as
is; a scalar is broadcast over all levels and bands; a 1-D ndarray of length
numlevels is repeated over the bands; a 2-D ndarray must have shape
(numlevels, numbands).  Note that a wrong-shaped ndarray falls through the
elif chain to the final raise and therefore produces TypeError, not ValueError. -/
def get_waveband_data_array (values : WInput) (units : String) (numlevels : ℕ)
    (sw : Bool) : Except PyErr WDataArray :=
  match values with
  | .tagged d => .ok d
  | .scalar x =>
      .ok ⟨List.replicate numlevels (List.replicate (numbandsOf sw) x), units⟩
  | .array1 xs =>
      if xs.length = numlevels then
        .ok ⟨xs.map (fun x => List.replicate (numbandsOf sw) x), units⟩
      else .error .typeError
  | .array2 xss =>
      if xss.length = numlevels ∧ ∀ r ∈ xss, r.length = numbandsOf sw then
        .ok ⟨xss, units⟩
      else .error .typeError
  | .other => .error .typeError

/-- The full set of property fields created by Cloud.__init__
(cloud.py lines 117-147). -/
structure BaseCloudFields where
  mass_content_of_cloud_liquid_water : PDataArray
  mass_content_of_cloud_ice : PDataArray
  cloud_area_fraction : PDataArray
  cloud_ice_particle_size : PDataArray
  cloud_water_droplet_radius : PDataArray
  longwave_optical_thickness : WDataArray
  cloud_forward_scattering_fraction : WDataArray
  cloud_asymmetry_parameter : WDataArray
  shortwave_optical_thickness : WDataArray
  single_scattering_albedo : WDataArray
deriving DecidableEq, Repr

/-- Cloud.__init__ (cloud.py lines 82-147): numlevels is taken from z.size and
every input is converted in source order with the units used in the source. -/
def cloud_init (z : List ℚ) (cloud_fraction mass_ice mass_water
    ice_particle_size droplet_radius : PInput)
    (lw_optical_thickness sw_optical_thickness forward_scattering_fraction
    asymmetry_parameter single_scattering_albedo : WInput) :
    Except PyErr BaseCloudFields := do
  let mw ← get_p_data_array mass_water "kg m^-2" z.length
  let mi ← get_p_data_array mass_ice "kg m^-2" z.length
  let cf ← get_p_data_array cloud_fraction "dimensionless" z.length
  let ips ← get_p_data_array ice_particle_size "micrometers" z.length
  let dr ← get_p_data_array droplet_radius "micrometers" z.length
  let lw ← get_waveband_data_array lw_optical_thickness "dimensionless" z.length false
  let fsf ← get_waveband_data_array forward_scattering_fraction "dimensionless" z.length true
  let ap ← get_waveband_data_array asymmetry_parameter "dimensionless" z.length true
  let sw ← get_waveband_data_array sw_optical_thickness "dimensionless" z.length true
  let sa ← get_waveband_data_array single_scattering_albedo "dimensionless" z.length true
  return ⟨mw, mi, cf, ips, dr, lw, fsf, ap, sw, sa⟩

/-- An input is tagged when it is an already wrapped DataArray (those bypass
all validation). -/
def PInput.isTagged : PInput → Bool
  | .tagged _ => true
  | _ => false

/-- An input is tagged when it is an already wrapped DataArray. -/
def WInput.isTagged : WInput → Bool
  | .tagged _ => true
  | _ => false

/-- Modelled from the spec: konrad.utils.dz_from_z is imported by cloud.py but
is not under src/.  The spec (section 3) says layer spacing dz is derived from
the grid; we model the thickness of level i as the difference of consecutive
midpoint altitudes, with the lowest layer reaching from altitude 0 up to the
first midpoint, so dz[0] = z[0] and dz[i] = z[i] - z[i-1] for i > 0. -/
def dz_from_z {n : ℕ} (z : Fin n → ℚ) : Fin n → ℚ :=
  fun i => if h : i.val = 0 then z i else z i - z ⟨i.val - 1, by omega⟩

/-- np.clip(x, min=lo, max=hi). -/
def pyClip (x lo hi : ℚ) : ℚ := min (max x lo) hi

/-- np.allclose with its default tolerances (rtol = 1e-5, atol = 1e-8):
elementwise |a - b| <= atol + rtol * |b|. -/
def allClose {n : ℕ} (a b : Fin n → ℚ) : Prop :=
  ∀ i, |a i - b i| ≤ 1 / 100000000 + |b i| / 100000

instance {n : ℕ} (a b : Fin n → ℚ) : Decidable (allClose a b) := by
  unfold allClose; infer_instance

/-- Value of the affine segment through (x0, y0) and (x1, y1) at t, the basic
step of scipy linear interpolation. -/
def segEval {α : Type} [AddCommGroup α] [Module ℚ α]
    (x0 x1 : ℚ) (y0 y1 : α) (t : ℚ) : α :=
  y0 + ((t - x0) / (x1 - x0)) • (y1 - y0)

/-- Piecewise-linear interpolation through the points p0 :: p1 :: ps (abscissae
ascending), evaluated at t; outside the sampled range the first or last segment
is extrapolated, matching scipy interp1d with fill_value set to extrapolate. -/
def interpVal {α : Type} [AddCommGroup α] [Module ℚ α] :
    ℚ × α → ℚ × α → List (ℚ × α) → ℚ → α
  | p0, p1, [], t => segEval p0.1 p1.1 p0.2 p1.2 t
  | p0, p1, q :: qs, t =>
      if t ≤ p1.1 then segEval p0.1 p1.1 p0.2 p1.2 t
      else interpVal p1 q qs t

/-- Evaluation of a stored interp1d object.  interp1d needs at least two
sample points; with fewer the value 0 below is an arbitrary placeholder
(scipy would already have refused to build the interpolator). -/
def interpEval {α : Type} [AddCommGroup α] [Module ℚ α]
    (pts : List (ℚ × α)) (t : ℚ) : α :=
  match pts with
  | p0 :: p1 :: ps => interpVal p0 p1 ps t
  | _ => 0

/-- Cloud.interpolation_function (cloud.py lines 149-168): pair every normed
height z[i] - norm_level with the parameter value at level i. -/
def interpolation_function {α : Type} [AddCommGroup α] [Module ℚ α]
    (normLevel : ℚ) (z : List ℚ) (values : List α) : List (ℚ × α) :=
  (z.map (fun zi => zi - normLevel)).zip values

/-- State of a PhysicalCloud (cloud.py lines 252-334): the altitude grid and
the five per-level base property fields it owns.  The per-band fields keep
their zero/default values and never change, so they are not tracked here. -/
structure PhysicalCloud (n : ℕ) where
  z : Fin n → ℚ
  cloud_area_fraction : Fin n → ℚ
  mass_water : Fin n → ℚ
  mass_ice : Fin n → ℚ
  ice_particle_size : Fin n → ℚ
  droplet_radius : Fin n → ℚ
deriving DecidableEq

/-- PhysicalCloud.__add__ (cloud.py lines 282-329), with the right operand
given by its base property fields (attribute lookup on the other cloud, which
succeeds for every Cloud subclass).  After the np.allclose grid check, the
per-level max/sum/min arrays are computed and then re-wrapped through
get_p_data_array, which is called without a numlevels argument and therefore
checks the arrays against its default of 200 levels: on any grid whose length
is not 200 that call raises ValueError, otherwise the summed cloud is built. -/
def physicalCloudAddFields {n : ℕ} (a : PhysicalCloud n)
    (zb f2 mw2 mi2 s2 r2 : Fin n → ℚ) : Except PyErr (PhysicalCloud n) :=
  if allClose a.z zb then
    if n = 200 then
      .ok { z := a.z
            cloud_area_fraction :=
              fun i => pyClip (max (a.cloud_area_fraction i) (f2 i)) 0 1
            mass_water := fun i => a.mass_water i + mw2 i
            mass_ice := fun i => a.mass_ice i + mi2 i
            ice_particle_size := fun i => min (a.ice_particle_size i) (s2 i)
            droplet_radius := fun i => min (a.droplet_radius i) (r2 i) }
    else .error .valueError
  else .error .valueError

/-- PhysicalCloud.__add__ applied to another PhysicalCloud. -/
def PhysicalCloud.add {n : ℕ} (a b : PhysicalCloud n) :
    Except PyErr (PhysicalCloud n) :=
  physicalCloudAddFields a b.z b.cloud_area_fraction b.mass_water b.mass_ice
    b.ice_particle_size b.droplet_radius

/-- State of a DirectInputCloud (cloud.py lines 337-431): grid, cloud
fraction, per-band optical thicknesses and scattering parameters, the derived
per-meter optical thicknesses, the normalisation level and the three stored
interpolation functions built at construction time. -/
structure DirectInputCloud (n : ℕ) where
  z : Fin n → ℚ
  cloud_area_fraction : Fin n → ℚ
  lw_optical_thickness : Fin n → Fin 16 → ℚ
  sw_optical_thickness : Fin n → Fin 14 → ℚ
  forward_scattering_fraction : Fin n → Fin 14 → ℚ
  asymmetry_parameter : Fin n → Fin 14 → ℚ
  single_scattering_albedo : Fin n → Fin 14 → ℚ
  lw_per_meter : Fin n → Fin 16 → ℚ
  sw_per_meter : Fin n → Fin 14 → ℚ
  norm_level : ℚ
  fInterp : List (ℚ × ℚ)
  swInterp : List (ℚ × (Fin 14 → ℚ))
  lwInterp : List (ℚ × (Fin 16 → ℚ))

/-- DirectInputCloud.__init__ (cloud.py lines 340-371) with the inputs already
given as correctly shaped fields (the DataArray passthrough branch of the
converters).  The per-meter optical thicknesses are the initial thicknesses
divided elementwise by the initial layer thicknesses, and the interpolation
functions are built on the initial grid with _norm_level = 0 (assigned at line
365, before they are built). -/
def directInputCloudInit {n : ℕ} (z cloud_fraction : Fin n → ℚ)
    (lwT : Fin n → Fin 16 → ℚ) (swT : Fin n → Fin 14 → ℚ)
    (fsf asymParam ssa : Fin n → Fin 14 → ℚ) : DirectInputCloud n :=
  let dz := dz_from_z z
  let lwPM : Fin n → Fin 16 → ℚ := fun i b => lwT i b / dz i
  let swPM : Fin n → Fin 14 → ℚ := fun i b => swT i b / dz i
  { z := z
    cloud_area_fraction := cloud_fraction
    lw_optical_thickness := lwT
    sw_optical_thickness := swT
    forward_scattering_fraction := fsf
    asymmetry_parameter := asymParam
    single_scattering_albedo := ssa
    lw_per_meter := lwPM
    sw_per_meter := swPM
    norm_level := 0
    fInterp := interpolation_function 0 (List.ofFn z) (List.ofFn cloud_fraction)
    swInterp := interpolation_function 0 (List.ofFn z) (List.ofFn swPM)
    lwInterp := interpolation_function 0 (List.ofFn z) (List.ofFn lwPM) }

/-- DirectInputCloud.update_cloud_profile (cloud.py lines 414-431): adopt the
new grid, re-profile cloud fraction and the per-meter optical thicknesses with
the stored interpolation functions at anchor 0, then rescale the optical
thicknesses with the new layer thicknesses (scale_optical_thickness, lines
193-218).  The scattering parameters and the stored interpolation functions
are not touched.  The level count is model-wide constant (spec section 3), so
the new grid has the same length as the old one. -/
def directInputCloudUpdate {n : ℕ} (c : DirectInputCloud n) (z : Fin n → ℚ) :
    DirectInputCloud n :=
  let dz := dz_from_z z
  let fraction : Fin n → ℚ := fun i => interpEval c.fInterp (z i - 0)
  let swPM : Fin n → Fin 14 → ℚ := fun i => interpEval c.swInterp (z i - 0)
  let lwPM : Fin n → Fin 16 → ℚ := fun i => interpEval c.lwInterp (z i - 0)
  { c with
    z := z
    cloud_area_fraction := fraction
    sw_per_meter := swPM
    lw_per_meter := lwPM
    lw_optical_thickness := fun i b => dz i * lwPM i b
    sw_optical_thickness := fun i b => dz i * swPM i b }

/-- DirectInputCloud.__add__ (cloud.py lines 373-412): after the np.allclose
grid check it computes the combined cloud fraction and the per-band sums of
optical thickness, but line 389 then calls get_waveband_data_array with the
keyword argument numbands, which is not a parameter of that function
(lines 38-39), so Python raises TypeError at that call and the addition never
returns a cloud. -/
def DirectInputCloud.add {n : ℕ} (a b : DirectInputCloud n) :
    Except PyErr (DirectInputCloud n) :=
  if allClose a.z b.z then .error .typeError else .error .valueError

/-- Total column optical thickness of a shortwave band: the sum over levels of
the per-level optical thickness. -/
def swColumnTotal {n : ℕ} (c : DirectInputCloud n) (b : Fin 14) : ℚ :=
  ∑ i, c.sw_optical_thickness i b

/-- Total column optical thickness of a longwave band. -/
def lwColumnTotal {n : ℕ} (c : DirectInputCloud n) (b : Fin 16) : ℚ :=
  ∑ i, c.lw_optical_thickness i b

/-- Cloud.calculate_mass_cloud (cloud.py lines 220-236):
mass[i] = fraction[i] * density * 10^-3 * dz[i]. -/
def calculate_mass_cloud {n : ℕ} (cloud_fraction_array dz : Fin n → ℚ)
    (density : ℚ) : Fin n → ℚ :=
  fun i => cloud_fraction_array i * density * (1 / 1000) * dz i

/-- State of a HighCloud (cloud.py lines 434-487). -/
structure HighCloud (n : ℕ) where
  z : Fin n → ℚ
  cloud_area_fraction : Fin n → ℚ
  mass_ice : Fin n → ℚ
  ice_particle_size : Fin n → ℚ
  ice_density : ℚ
  norm_level : ℚ
  fInterp : List (ℚ × ℚ)

/-- HighCloud.__init__ (cloud.py lines 437-471): the cloud fraction is a step
profile equal to cloud_fraction_in_cloud on the levels strictly between
cloud_top - depth and cloud_top and 0 elsewhere; the ice mass follows from
calculate_mass_cloud; _norm_level is set to cloud_top (line 469) before the
interpolation function is built (line 470). -/
def highCloudInit {n : ℕ} (z : Fin n → ℚ)
    (cloud_top depth cloud_fraction_in_cloud ice_density ips : ℚ) :
    HighCloud n :=
  let fraction : Fin n → ℚ :=
    fun i => if z i < cloud_top ∧ cloud_top - depth < z i
             then cloud_fraction_in_cloud else 0
  { z := z
    cloud_area_fraction := fraction
    mass_ice := calculate_mass_cloud fraction (dz_from_z z) ice_density
    ice_particle_size := fun _ => ips
    ice_density := ice_density
    norm_level := cloud_top
    fInterp := interpolation_function cloud_top (List.ofFn z) (List.ofFn fraction) }

/-- A Python float-like value as handed to shift_property: either an actual
number, or the interned np.nan literal object itself, or a NaN produced by
computation or read out of a numpy array (a fresh float64 object, never
identical to the np.nan literal). -/
inductive PyScalar where
  | num (x : ℚ)
  | nanLiteral
  | nanComputed
deriving DecidableEq, Repr

/-- A float value where NaN is represented by none. -/
def QN : Type := Option ℚ
deriving DecidableEq, Repr

/-- The numeric value of a PyScalar (both NaN objects hold the value NaN). -/
def PyScalar.toQN : PyScalar → QN
  | .num x => some x
  | .nanLiteral => none
  | .nanComputed => none

/-- IEEE subtraction: NaN propagates. -/
def QN.sub : QN → QN → QN
  | some a, some b => some (a - b)
  | _, _ => none

/-- IEEE multiplication: NaN propagates (even 0 * NaN is NaN). -/
def QN.mul : QN → QN → QN
  | some a, some b => some (a * b)
  | _, _ => none

/-- Evaluation of a stored interp1d object at a possibly-NaN point: linear
interpolation arithmetic on a NaN abscissa yields NaN in every component. -/
def interpEvalN (pts : List (ℚ × ℚ)) : QN → QN
  | some t => some (interpEval pts t)
  | none => none

/-- Cloud.shift_property (cloud.py lines 170-191) for a per-level property.
The guard at line 184 is `norm_new is not np.nan`: an object-identity test
that is False only for the np.nan literal object itself.  For the literal the
property is re-profiled at the stored _norm_level; for everything else -
including a NaN that was computed or read out of an array - the interpolation
is evaluated at z - norm_new, which for a NaN anchor is NaN everywhere. -/
def shift_property {n : ℕ} (fInterp : List (ℚ × ℚ)) (norm_level : ℚ)
    (z : Fin n → ℚ) (norm_new : PyScalar) : Fin n → QN :=
  if norm_new ≠ PyScalar.nanLiteral then
    fun i => interpEvalN fInterp (QN.sub (some (z i)) norm_new.toQN)
  else
    fun i => interpEvalN fInterp (some (z i - norm_level))

/-- HighCloud.update_cloud_profile (cloud.py lines 473-487): re-profile the
cloud fraction with the stored interpolation function at the diagnosed
convective top, then recompute the ice mass from the updated fraction and the
new layer thicknesses.  Returns the updated cloud fraction and ice mass (the
only fields the method writes; it does not even update self.z). -/
def highCloudUpdate {n : ℕ} (c : HighCloud n) (z : Fin n → ℚ)
    (norm_new : PyScalar) : (Fin n → QN) × (Fin n → QN) :=
  let dz := dz_from_z z
  let fraction := shift_property c.fInterp c.norm_level z norm_new
  let massIce := fun i =>
    QN.mul (QN.mul (QN.mul (fraction i) (some c.ice_density)) (some (1 / 1000)))
      (some (dz i))
  (fraction, massIce)

/-- State of a LowCloud (cloud.py lines 490-540).  No LowCloud value is ever
produced by the constructor model below; the structure only gives the
constructor's result type. -/
structure LowCloud (n : ℕ) where
  z : Fin n → ℚ
  cloud_area_fraction : Fin n → ℚ
  mass_water : Fin n → ℚ
  droplet_radius : Fin n → ℚ
  water_density : ℚ
  norm_level : ℚ
  fInterp : List (ℚ × ℚ)

/-- LowCloud.__init__ (cloud.py lines 493-525).  The step-profile cloud
fraction and the liquid water mass are computed and the base fields are
created, but line 523 then calls interpolation_function, whose body reads
self._norm_level (line 161) - and _norm_level is only assigned afterwards, at
line 525.  The attribute does not exist at that point (neither on
the instance nor on any class in the hierarchy), so AttributeError is raised:
no LowCloud can ever be constructed. -/
def lowCloudInit {n : ℕ} (z : Fin n → ℚ)
    (cloud_top depth cloud_fraction_in_cloud water_density dropletR : ℚ) :
    Except PyErr (LowCloud n) :=
  let fraction : Fin n → ℚ :=
    fun i => if z i < cloud_top ∧ cloud_top - depth < z i
             then cloud_fraction_in_cloud else 0
  let _mass_water := calculate_mass_cloud fraction (dz_from_z z) water_density
  let _droplet_radius : Fin n → ℚ := fun _ => dropletR
  .error .attributeError

/-- State of a ClearSky cloud (cloud.py lines 247-249): only the grid; every
property field keeps the zero/default value given by Cloud.__init__. -/
structure ClearSky (n : ℕ) where
  z : Fin n → ℚ

/-- A member of a cloud ensemble: any of the concrete Cloud subclasses. -/
inductive AnyCloud (n : ℕ) where
  | clearsky (c : ClearSky n)
  | physical (c : PhysicalCloud n)
  | direct (c : DirectInputCloud n)
  | high (c : HighCloud n)
  | low (c : LowCloud n)

/-- The altitude grid attribute of any cloud. -/
def AnyCloud.zF {n : ℕ} : AnyCloud n → (Fin n → ℚ)
  | .clearsky c => c.z
  | .physical c => c.z
  | .direct c => c.z
  | .high c => c.z
  | .low c => c.z

/-- cloud_area_fraction_in_atmosphere_layer of any cloud (ClearSky keeps the
default 0 from Cloud.__init__). -/
def AnyCloud.fractionF {n : ℕ} : AnyCloud n → (Fin n → ℚ)
  | .clearsky _ => fun _ => 0
  | .physical c => c.cloud_area_fraction
  | .direct c => c.cloud_area_fraction
  | .high c => c.cloud_area_fraction
  | .low c => c.cloud_area_fraction

/-- mass_content_of_cloud_liquid_water_in_atmosphere_layer of any cloud
(default 0 for the variants that do not set it). -/
def AnyCloud.massWaterF {n : ℕ} : AnyCloud n → (Fin n → ℚ)
  | .physical c => c.mass_water
  | .low c => c.mass_water
  | _ => fun _ => 0

/-- mass_content_of_cloud_ice_in_atmosphere_layer of any cloud. -/
def AnyCloud.massIceF {n : ℕ} : AnyCloud n → (Fin n → ℚ)
  | .physical c => c.mass_ice
  | .high c => c.mass_ice
  | _ => fun _ => 0

/-- cloud_ice_particle_size of any cloud (default 20). -/
def AnyCloud.iceSizeF {n : ℕ} : AnyCloud n → (Fin n → ℚ)
  | .physical c => c.ice_particle_size
  | .high c => c.ice_particle_size
  | _ => fun _ => 20

/-- cloud_water_droplet_radius of any cloud (default 10). -/
def AnyCloud.dropRadiusF {n : ℕ} : AnyCloud n → (Fin n → ℚ)
  | .physical c => c.droplet_radius
  | .low c => c.droplet_radius
  | _ => fun _ => 10

/-- The + operation used when np.sum folds the ensemble members
(CloudEnsemble.superpose, cloud.py line 571).  Which __add__ runs is decided
by the class of the left operand: PhysicalCloud.__add__ reads the base fields
of whatever the right operand is; DirectInputCloud.__add__ raises TypeError
right after its grid check (the unexpected numbands keyword at line 389);
ClearSky, HighCloud and LowCloud define no __add__ at all, so Python raises
TypeError (unsupported operand types for +). -/
def cloudAdd {n : ℕ} (a b : AnyCloud n) : Except PyErr (AnyCloud n) :=
  match a with
  | .physical pa =>
      (physicalCloudAddFields pa b.zF b.fractionF b.massWaterF b.massIceF
        b.iceSizeF b.dropRadiusF).map .physical
  | .direct da =>
      if allClose da.z b.zF then .error .typeError else .error .valueError
  | _ => .error .typeError

/-- True for the classes that define no __add__ operator. -/
def AnyCloud.lacksAdd {n : ℕ} : AnyCloud n → Bool
  | .clearsky _ => true
  | .high _ => true
  | .low _ => true
  | _ => false

/-- CloudEnsemble.superpose (cloud.py lines 569-571): np.sum over the tuple of
member clouds, which for an object array is the left fold of the members under
+ with no initial element.  A CloudEnsemble is always built with at least one
member, so the fold starts at the first member. -/
def superpose {n : ℕ} (c0 : AnyCloud n) (rest : List (AnyCloud n)) :
    Except PyErr (AnyCloud n) :=
  rest.foldlM cloudAdd c0

/-- A cloud ensemble: the member list and the cached superposition. -/
structure CloudEnsemble (n : ℕ) where
  clouds : List (AnyCloud n)
  superposition : AnyCloud n

/-- CloudEnsemble.__init__ (cloud.py lines 557-561): store the members and
immediately compute the superposition; an exception raised by a member's
__add__ propagates out of the constructor. -/
def cloudEnsembleInit {n : ℕ} (c0 : AnyCloud n) (rest : List (AnyCloud n)) :
    Except PyErr (CloudEnsemble n) :=
  (superpose c0 rest).map (fun s => ⟨c0 :: rest, s⟩)

/-- np.linspace(0, 20000, 200): the i-th of 200 evenly spaced values from 0 to
20000 inclusive. -/
def linspace200 : Fin 200 → ℚ := fun i => 20000 * (i : ℚ) / 199

/-- A concrete two-level DirectInputCloud: grid z = [1, 2], cloud fraction 1,
all shortwave and longwave optical thicknesses 1 (so, since dz = [1, 1], the
stored per-meter optical thickness is 1 everywhere), default scattering
parameters. -/
def dCloud2 : DirectInputCloud 2 :=
  directInputCloudInit (fun i => (i : ℚ) + 1) (fun _ => 1) (fun _ _ => 1)
    (fun _ _ => 1) (fun _ _ => 0) (fun _ _ => 17 / 20) (fun _ _ => 9 / 10)

/-- A concrete four-level HighCloud: grid z = [1, 2, 3, 4], cloud top 3,
depth 2, in-cloud fraction 1, ice density 1/2, so the initial cloud fraction
profile is [0, 1, 0, 0]. -/
def hCloud4 : HighCloud 4 :=
  highCloudInit (fun i => (i : ℚ) + 1) 3 2 1 (1 / 2) 20

theorem allClose_refl {n : ℕ} (a : Fin n → ℚ) : allClose a a := by
  intro i
  simp only [sub_self, abs_zero]
  positivity

theorem segEval_left {α : Type} [AddCommGroup α] [Module ℚ α]
    (x0 x1 : ℚ) (y0 y1 : α) : segEval x0 x1 y0 y1 x0 = y0 := by
  simp [segEval]

theorem segEval_right {α : Type} [AddCommGroup α] [Module ℚ α]
    (x0 x1 : ℚ) (y0 y1 : α) (h : x0 ≠ x1) : segEval x0 x1 y0 y1 x1 = y1 := by
  rw [segEval, div_self (sub_ne_zero.mpr (Ne.symm h)), one_smul]
  abel

/-- Linear interpolation through strictly increasing sample points is exact at
every sample point. -/
theorem interpVal_node {α : Type} [AddCommGroup α] [Module ℚ α] :
    ∀ (p0 p1 : ℚ × α) (ps : List (ℚ × α)),
      (p0 :: p1 :: ps).Pairwise (fun a b => a.1 < b.1) →
      ∀ q ∈ p0 :: p1 :: ps, interpVal p0 p1 ps q.1 = q.2 := by
  intro p0 p1 ps
  induction ps generalizing p0 p1 with
  | nil =>
    intro hp q hq
    have h01 : p0.1 < p1.1 := List.rel_of_pairwise_cons hp (by simp)
    rcases List.mem_cons.mp hq with hq | hq
    · rw [hq]; exact segEval_left p0.1 p1.1 p0.2 p1.2
    rcases List.mem_cons.mp hq with hq | hq
    · rw [hq]; exact segEval_right p0.1 p1.1 p0.2 p1.2 (ne_of_lt h01)
    · cases hq
  | cons q1 qs ih =>
    intro hp q hq
    have h01 : p0.1 < p1.1 := List.rel_of_pairwise_cons hp (by simp)
    have hp1 : (p1 :: q1 :: qs).Pairwise (fun a b => a.1 < b.1) := hp.of_cons
    rcases List.mem_cons.mp hq with hq | hq
    · rw [hq, interpVal, if_pos (le_of_lt h01)]
      exact segEval_left p0.1 p1.1 p0.2 p1.2
    rcases List.mem_cons.mp hq with hq | hq
    · rw [hq, interpVal, if_pos (le_refl p1.1)]
      exact segEval_right p0.1 p1.1 p0.2 p1.2 (ne_of_lt h01)
    · have hgt : p1.1 < q.1 := List.rel_of_pairwise_cons hp1 hq
      rw [interpVal, if_neg (not_le.mpr hgt)]
      exact ih p1 q1 hp1 q (List.mem_cons.mpr (Or.inr hq))

/-- The interpolation function built by Cloud.interpolation_function returns
the original level value when evaluated at that level's normed height,
provided the grid is strictly ascending and has at least two levels. -/
theorem interpolation_function_node {α : Type} [AddCommGroup α] [Module ℚ α]
    {n : ℕ} (hn : 2 ≤ n) (z : Fin n → ℚ)
    (hz : ∀ i j : Fin n, i < j → z i < z j)
    (normLevel : ℚ) (vals : Fin n → α) (j : Fin n) :
    interpEval (interpolation_function normLevel (List.ofFn z) (List.ofFn vals))
      (z j - normLevel) = vals j := by
  set pts := interpolation_function normLevel (List.ofFn z) (List.ofFn vals) with hpts
  have hlen : pts.length = n := by
    simp [hpts, interpolation_function]
  have hget : ∀ (k : ℕ) (hk : k < pts.length),
      pts[k] = (z ⟨k, by omega⟩ - normLevel, vals ⟨k, by omega⟩) := by
    intro k hk
    have hk' : k < n := by omega
    simp [hpts, interpolation_function]
  have hpair : pts.Pairwise (fun a b => a.1 < b.1) := by
    rw [List.pairwise_iff_getElem]
    intro a b ha hb hab
    rw [hget a ha, hget b hb]
    exact sub_lt_sub_right (hz _ _ (by simpa using hab)) _
  have hmem : (z j - normLevel, vals j) ∈ pts := by
    have hj : (j : ℕ) < pts.length := by omega
    have := hget j hj
    rw [show (⟨(j : ℕ), by omega⟩ : Fin n) = j from rfl] at this
    exact this ▸ List.getElem_mem hj
  obtain ⟨p0, p1, ps, hdecomp⟩ : ∃ p0 p1 ps, pts = p0 :: p1 :: ps := by
    have h0 : pts ≠ [] := by
      intro h
      rw [h] at hlen
      simp only [List.length_nil] at hlen
      omega
    obtain ⟨p0, tl, h1⟩ := List.exists_cons_of_ne_nil h0
    have h2 : tl ≠ [] := by
      intro h
      rw [h1, h] at hlen
      simp only [List.length_cons, List.length_nil] at hlen
      omega
    obtain ⟨p1, ps, h3⟩ := List.exists_cons_of_ne_nil h2
    exact ⟨p0, p1, ps, by rw [h1, h3]⟩
  rw [hdecomp, interpEval]
  exact interpVal_node p0 p1 ps (hdecomp ▸ hpair) _ (hdecomp ▸ hmem)

/-- Linear interpolation through points that all carry one and the same value
is constant: every segment between equal values evaluates to that value. -/
theorem interpVal_const {α : Type} [AddCommGroup α] [Module ℚ α] :
    ∀ (x0 x1 : ℚ) (ps : List (ℚ × α)) (y : α) (t : ℚ),
      (∀ p ∈ ps, p.2 = y) → interpVal (x0, y) (x1, y) ps t = y := by
  intro x0 x1 ps
  induction ps generalizing x0 x1 with
  | nil =>
    intro y t _
    simp [interpVal, segEval]
  | cons q qs ih =>
    intro y t hy
    have hq : q = (q.1, y) := by
      have h2 := hy q (by simp)
      rw [← h2]
    rw [interpVal]
    split
    · simp [segEval]
    · rw [hq]
      exact ih x1 q.1 y t (fun p hp => hy p (by simp [hp]))

theorem dz_from_z_zero {n : ℕ} (z : Fin (n + 1) → ℚ) : dz_from_z z 0 = z 0 := by
  simp [dz_from_z]

theorem dz_from_z_one {n : ℕ} (z : Fin (n + 2) → ℚ) :
    dz_from_z z 1 = z 1 - z 0 := by
  simp [dz_from_z, Fin.ext_iff]

theorem ofFn_two {β : Type} (f : Fin 2 → β) : List.ofFn f = [f 0, f 1] := by
  simp [List.ofFn_succ, List.ofFn_zero, Fin.succ_zero_eq_one]

theorem interpolation_function_two {α : Type} [AddCommGroup α] [Module ℚ α]
    (normLevel : ℚ) (z : Fin 2 → ℚ) (vals : Fin 2 → α) :
    interpolation_function normLevel (List.ofFn z) (List.ofFn vals)
      = [(z 0 - normLevel, vals 0), (z 1 - normLevel, vals 1)] := by
  rw [interpolation_function, ofFn_two, ofFn_two]
  rfl

theorem interpEval_pair {α : Type} [AddCommGroup α] [Module ℚ α]
    (p0 p1 : ℚ × α) (t : ℚ) :
    interpEval [p0, p1] t = segEval p0.1 p1.1 p0.2 p1.2 t := rfl

/-- Helper: a successful Except bind factors through a successful first step. -/
theorem except_bind_ok {ε α β : Type} (x : Except ε α) (f : α → Except ε β)
    (b : β) (h : (x >>= f) = .ok b) : ∃ a, x = .ok a ∧ f a = .ok b := by
  cases x with
  | ok a => exact ⟨a, rfl, h⟩
  | error e => exact Except.noConfusion h

/-- Helper: a per-level conversion that succeeds on a non-tagged input always
produces exactly numlevels values. -/
theorem get_p_ok_length (v : PInput) (u : String) (nl : ℕ) (d : PDataArray)
    (hok : get_p_data_array v u nl = .ok d) (ht : v.isTagged = false) :
    d.values.length = nl := by
  cases v with
  | scalar x =>
    simp only [get_p_data_array, Except.ok.injEq] at hok
    rw [← hok]
    simp
  | array1 xs =>
    simp only [get_p_data_array] at hok
    split at hok
    · simp only [Except.ok.injEq] at hok
      rw [← hok]
      simpa using by assumption
    · exact Except.noConfusion hok
  | array2 xss => exact Except.noConfusion hok
  | tagged d0 => simp [PInput.isTagged] at ht
  | other => exact Except.noConfusion hok

/-- Helper: a per-band conversion that succeeds on a non-tagged input always
produces numlevels rows of numbands entries each. -/
theorem get_waveband_ok_shape (v : WInput) (u : String) (nl : ℕ) (sw : Bool)
    (d : WDataArray) (hok : get_waveband_data_array v u nl sw = .ok d)
    (ht : v.isTagged = false) :
    d.values.length = nl ∧ ∀ r ∈ d.values, r.length = numbandsOf sw := by
  cases v with
  | scalar x =>
    simp only [get_waveband_data_array, Except.ok.injEq] at hok
    rw [← hok]
    constructor
    · simp
    · intro r hr
      rw [List.eq_of_mem_replicate hr]
      simp
  | array1 xs =>
    simp only [get_waveband_data_array] at hok
    split at hok
    · simp only [Except.ok.injEq] at hok
      rw [← hok]
      constructor
      · simpa using by assumption
      · intro r hr
        obtain ⟨x, _, hx⟩ := List.mem_map.mp hr
        rw [← hx]
        simp
    · exact Except.noConfusion hok
  | array2 xss =>
    simp only [get_waveband_data_array] at hok
    split at hok
    · simp only [Except.ok.injEq] at hok
      rw [← hok]
      exact (by assumption)
    · exact Except.noConfusion hok
  | tagged d0 => simp [WInput.isTagged] at ht
  | other => exact Except.noConfusion hok

/-- C1: the claim is false as stated.  Re-gridding the concrete two-level
DirectInputCloud dCloud2 (grid [1, 2], layer thicknesses [1, 1], per-meter
optical thickness 1 in every band) onto the grid [1, 3] (layer thicknesses
[1, 2]) changes the column total of band 0 (and likewise of every band) from
2 to 3 - a discretisation change far beyond floating-point tolerance.  The
update multiplies the stored per-meter profile by the new layer thicknesses,
a Riemann sum over the new grid, which is not invariant under re-gridding. -/
theorem C1_counterexample :
    swColumnTotal dCloud2 0 = 2
    ∧ swColumnTotal (directInputCloudUpdate dCloud2
        (fun i => 2 * (i : ℚ) + 1)) 0 = 3
    ∧ lwColumnTotal dCloud2 0 = 2
    ∧ lwColumnTotal (directInputCloudUpdate dCloud2
        (fun i => 2 * (i : ℚ) + 1)) 0 = 3 := by
  have hswI : dCloud2.swInterp = interpolation_function 0
      (List.ofFn (fun i : Fin 2 => (i : ℚ) + 1))
      (List.ofFn (fun i : Fin 2 => fun _b : Fin 14 =>
        (1 : ℚ) / dz_from_z (fun k : Fin 2 => (k : ℚ) + 1) i)) := rfl
  have hlwI : dCloud2.lwInterp = interpolation_function 0
      (List.ofFn (fun i : Fin 2 => (i : ℚ) + 1))
      (List.ofFn (fun i : Fin 2 => fun _b : Fin 16 =>
        (1 : ℚ) / dz_from_z (fun k : Fin 2 => (k : ℚ) + 1) i)) := rfl
  refine ⟨?_, ?_, ?_, ?_⟩
  · rw [swColumnTotal, Fin.sum_univ_two]
    show (1 : ℚ) + 1 = 2
    norm_num
  · rw [swColumnTotal, Fin.sum_univ_two]
    simp only [directInputCloudUpdate]
    rw [hswI, interpolation_function_two]
    simp only [interpEval_pair, segEval, Pi.add_apply, Pi.smul_apply,
      Pi.sub_apply, smul_eq_mul, dz_from_z_zero, dz_from_z_one]
    norm_num
  · rw [lwColumnTotal, Fin.sum_univ_two]
    show (1 : ℚ) + 1 = 2
    norm_num
  · rw [lwColumnTotal, Fin.sum_univ_two]
    simp only [directInputCloudUpdate]
    rw [hlwI, interpolation_function_two]
    simp only [interpEval_pair, segEval, Pi.add_apply, Pi.smul_apply,
      Pi.sub_apply, smul_eq_mul, dz_from_z_zero, dz_from_z_one]
    norm_num

/-- C1 amended: update_cloud_profile recomputes each band's per-level optical
thickness as the new layer thickness times the stored per-meter profile
resampled on the new grid; re-gridding onto the unchanged grid therefore
restores every per-level, per-band optical thickness exactly, and with it
every band's column total - but a re-grid that changes the layer thicknesses
changes the column totals (they are Riemann sums of the per-meter profile over
the grid), as the counterexample shows. -/
theorem C1_amended {n : ℕ} (hn : 2 ≤ n) (z : Fin n → ℚ)
    (hz : ∀ i j : Fin n, i < j → z i < z j)
    (hdz : ∀ i, dz_from_z z i ≠ 0)
    (cloud_fraction : Fin n → ℚ) (lwT : Fin n → Fin 16 → ℚ)
    (swT : Fin n → Fin 14 → ℚ) (fsf asymParam ssa : Fin n → Fin 14 → ℚ) :
    (directInputCloudUpdate
        (directInputCloudInit z cloud_fraction lwT swT fsf asymParam ssa)
        z).sw_optical_thickness
      = (directInputCloudInit z cloud_fraction lwT swT fsf asymParam
          ssa).sw_optical_thickness
    ∧ (directInputCloudUpdate
        (directInputCloudInit z cloud_fraction lwT swT fsf asymParam ssa)
        z).lw_optical_thickness
      = (directInputCloudInit z cloud_fraction lwT swT fsf asymParam
          ssa).lw_optical_thickness
    ∧ (∀ b, swColumnTotal (directInputCloudUpdate
          (directInputCloudInit z cloud_fraction lwT swT fsf asymParam ssa) z) b
        = swColumnTotal
            (directInputCloudInit z cloud_fraction lwT swT fsf asymParam ssa) b)
    ∧ (∀ b, lwColumnTotal (directInputCloudUpdate
          (directInputCloudInit z cloud_fraction lwT swT fsf asymParam ssa) z) b
        = lwColumnTotal
            (directInputCloudInit z cloud_fraction lwT swT fsf asymParam ssa) b) := by
  have hsw : (directInputCloudUpdate
      (directInputCloudInit z cloud_fraction lwT swT fsf asymParam ssa)
      z).sw_optical_thickness = swT := by
    funext i b
    have h := congrFun (interpolation_function_node (α := Fin 14 → ℚ) hn z hz 0
      (fun k => fun b2 => swT k b2 / dz_from_z z k) i) b
    show dz_from_z z i * interpEval (interpolation_function 0 (List.ofFn z)
      (List.ofFn (fun k => fun b2 => swT k b2 / dz_from_z z k))) (z i - 0) b
      = swT i b
    rw [h, mul_comm]
    exact div_mul_cancel₀ _ (hdz i)
  have hlw : (directInputCloudUpdate
      (directInputCloudInit z cloud_fraction lwT swT fsf asymParam ssa)
      z).lw_optical_thickness = lwT := by
    funext i b
    have h := congrFun (interpolation_function_node (α := Fin 16 → ℚ) hn z hz 0
      (fun k => fun b2 => lwT k b2 / dz_from_z z k) i) b
    show dz_from_z z i * interpEval (interpolation_function 0 (List.ofFn z)
      (List.ofFn (fun k => fun b2 => lwT k b2 / dz_from_z z k))) (z i - 0) b
      = lwT i b
    rw [h, mul_comm]
    exact div_mul_cancel₀ _ (hdz i)
  refine ⟨hsw, hlw, fun b => ?_, fun b => ?_⟩
  · rw [swColumnTotal, swColumnTotal, hsw]
    rfl
  · rw [lwColumnTotal, lwColumnTotal, hlw]
    rfl

/-- C1 amended, witness: re-gridding the concrete cloud dCloud2 onto its own
grid [1, 2] leaves the optical-thickness fields and column totals unchanged. -/
theorem C1_amended_witness :
    (directInputCloudUpdate dCloud2 (fun i => (i : ℚ) + 1)).sw_optical_thickness
      = dCloud2.sw_optical_thickness
    ∧ (directInputCloudUpdate dCloud2 (fun i => (i : ℚ) + 1)).lw_optical_thickness
      = dCloud2.lw_optical_thickness
    ∧ swColumnTotal (directInputCloudUpdate dCloud2 (fun i => (i : ℚ) + 1)) 0
      = swColumnTotal dCloud2 0 := by
  have hz : ∀ a b : Fin 2, a < b → ((a : ℚ) + 1) < ((b : ℚ) + 1) := by
    intro a b hab
    have hn2 : (a : ℕ) < (b : ℕ) := hab
    have hq : ((a : ℕ) : ℚ) < ((b : ℕ) : ℚ) := by exact_mod_cast hn2
    linarith
  have hdz : ∀ i : Fin 2, dz_from_z (fun k : Fin 2 => (k : ℚ) + 1) i ≠ 0 := by
    intro i
    fin_cases i
    · rw [show ((⟨0, by omega⟩ : Fin 2) : Fin 2) = 0 from rfl, dz_from_z_zero]
      norm_num
    · rw [show ((⟨1, by omega⟩ : Fin 2) : Fin 2) = 1 from rfl, dz_from_z_one]
      norm_num
  have h := C1_amended (n := 2) (by omega) (fun i => (i : ℚ) + 1) hz hdz
    (fun _ => 1) (fun _ _ => 1) (fun _ _ => 1) (fun _ _ => 0)
    (fun _ _ => 17 / 20) (fun _ _ => 9 / 10)
  exact ⟨h.1, h.2.1, h.2.2.1 0⟩

/-- C2 evaluated at the failing input: updating the concrete HighCloud with a
convective-top diagnostic that is a NaN produced by the convection collaborator
(any NaN read out of a numpy array is a fresh float64 object, distinct from
the np.nan literal, so the object-identity guard at line 184 sends it down the
shift branch) evaluates the interpolation at z - NaN and yields NaN at every
level of the cloud fraction and of the recomputed ice mass; re-profiling at
the previous anchor - which the claim prescribes, and which the code performs
only for the np.nan literal object itself - would reproduce the original
NaN-free step profile. -/
theorem C2_nan_anchor_produces_nan :
    (∀ i, (highCloudUpdate hCloud4 (fun j => (j : ℚ) + 1) .nanComputed).1 i = none)
    ∧ (∀ i, (highCloudUpdate hCloud4 (fun j => (j : ℚ) + 1) .nanComputed).2 i = none)
    ∧ (∀ i, (highCloudUpdate hCloud4 (fun j => (j : ℚ) + 1) .nanLiteral).1 i
        = some (hCloud4.cloud_area_fraction i)) := by
  refine ⟨fun i => rfl, fun i => rfl, ?_⟩
  intro i
  have hz : ∀ a b : Fin 4, a < b → ((a : ℚ) + 1) < ((b : ℚ) + 1) := by
    intro a b hab
    have hn : (a : ℕ) < (b : ℕ) := hab
    have hq : ((a : ℕ) : ℚ) < ((b : ℕ) : ℚ) := by exact_mod_cast hn
    linarith
  have h := interpolation_function_node (α := ℚ) (by omega)
    (fun j : Fin 4 => (j : ℚ) + 1) hz 3
    (fun j => if ((j : ℚ) + 1) < 3 ∧ 3 - 2 < ((j : ℚ) + 1) then 1 else 0) i
  exact congrArg some h

/-- C3 evaluated at the failing input: adding the concrete DirectInputCloud to
itself raises TypeError, because DirectInputCloud.__add__ (line 389) calls
get_waveband_data_array with the keyword argument numbands, which that
function does not accept.  a + b never yields a cloud for DirectInputClouds,
so neither the claimed commutativity nor the zero-cloud mass identity can hold
for them (they do hold for PhysicalCloud on the default 200-level grid, see
the C5 results). -/
theorem C3_direct_add_raises :
    DirectInputCloud.add dCloud2 dCloud2 = .error .typeError := by
  rw [DirectInputCloud.add, if_pos (allClose_refl _)]

/-- C4 evaluated at the failing input: a CloudEnsemble of two DirectInputClouds
on the same grid never gets a superposition - the fold of the members under
DirectInputCloud.__add__ raises TypeError (the unexpected numbands keyword at
line 389) during construction, and the same fold would run again on every
update - contradicting the claim that update recomputes the superposition as
the left fold of the members, with an order-independent result. -/
theorem C4_ensemble_superpose_raises :
    cloudEnsembleInit (.direct dCloud2) [.direct dCloud2] = .error .typeError := by
  have hadd : cloudAdd (.direct dCloud2) (.direct dCloud2) = .error .typeError := by
    show (if allClose dCloud2.z (AnyCloud.zF (.direct dCloud2)) then
      (Except.error PyErr.typeError : Except PyErr (AnyCloud 2))
      else .error .valueError) = .error .typeError
    rw [if_pos (show allClose dCloud2.z ((AnyCloud.direct dCloud2).zF) from
      allClose_refl _)]
  rw [cloudEnsembleInit, superpose, List.foldlM, hadd]
  rfl

/-- C5: the claim is false as stated for grids with other than 200 levels:
PhysicalCloud.__add__ re-wraps the combined arrays through get_p_data_array
without passing numlevels, so they are validated against the default of 200
model levels, and adding two PhysicalClouds on a 3-level shared grid raises
ValueError instead of returning the described sum. -/
theorem C5_counterexample :
    PhysicalCloud.add
      ⟨fun i => (i : ℚ), fun _ => 3 / 10, fun _ => 0, fun _ => 2,
        fun _ => 20, fun _ => 10⟩
      (⟨fun i => (i : ℚ), fun _ => 1 / 2, fun _ => 0, fun _ => 3,
        fun _ => 20, fun _ => 10⟩ : PhysicalCloud 3)
      = .error .valueError := by
  rw [PhysicalCloud.add, physicalCloudAddFields, if_pos (allClose_refl _)]
  rfl

/-- C5 amended: for every two PhysicalClouds on the same (np.allclose) grid of
the default 200 model levels, the sum has at every level cloud area fraction
equal to the max of the inputs clipped to [0, 1], ice and water mass equal to
the sums, and particle size and droplet radius equal to the minima; in
particular fractions 0.3 and 0.5 with ice masses 2 and 3 combine to fraction
0.5 and ice mass 5 at every level. -/
theorem C5_amended :
    (∀ a b : PhysicalCloud 200, allClose a.z b.z →
      PhysicalCloud.add a b = .ok
        { z := a.z
          cloud_area_fraction := fun i =>
            pyClip (max (a.cloud_area_fraction i) (b.cloud_area_fraction i)) 0 1
          mass_water := fun i => a.mass_water i + b.mass_water i
          mass_ice := fun i => a.mass_ice i + b.mass_ice i
          ice_particle_size := fun i =>
            min (a.ice_particle_size i) (b.ice_particle_size i)
          droplet_radius := fun i =>
            min (a.droplet_radius i) (b.droplet_radius i) })
    ∧ ∀ i : Fin 200,
      (PhysicalCloud.add
          ⟨fun _ => 0, fun _ => 3 / 10, fun _ => 0, fun _ => 2,
            fun _ => 20, fun _ => 10⟩
          (⟨fun _ => 0, fun _ => 1 / 2, fun _ => 0, fun _ => 3,
            fun _ => 20, fun _ => 10⟩ : PhysicalCloud 200)).map
        (fun c => c.cloud_area_fraction i) = .ok (1 / 2)
      ∧ (PhysicalCloud.add
          ⟨fun _ => 0, fun _ => 3 / 10, fun _ => 0, fun _ => 2,
            fun _ => 20, fun _ => 10⟩
          (⟨fun _ => 0, fun _ => 1 / 2, fun _ => 0, fun _ => 3,
            fun _ => 20, fun _ => 10⟩ : PhysicalCloud 200)).map
        (fun c => c.mass_ice i) = .ok 5 := by
  have hmain : ∀ a b : PhysicalCloud 200, allClose a.z b.z →
      PhysicalCloud.add a b = .ok
        { z := a.z
          cloud_area_fraction := fun i =>
            pyClip (max (a.cloud_area_fraction i) (b.cloud_area_fraction i)) 0 1
          mass_water := fun i => a.mass_water i + b.mass_water i
          mass_ice := fun i => a.mass_ice i + b.mass_ice i
          ice_particle_size := fun i =>
            min (a.ice_particle_size i) (b.ice_particle_size i)
          droplet_radius := fun i =>
            min (a.droplet_radius i) (b.droplet_radius i) } := by
    intro a b hab
    rw [PhysicalCloud.add, physicalCloudAddFields, if_pos hab]
    rfl
  refine ⟨hmain, fun i => ?_⟩
  have hs := hmain
    ⟨fun _ => 0, fun _ => 3 / 10, fun _ => 0, fun _ => 2,
      fun _ => 20, fun _ => 10⟩
    ⟨fun _ => 0, fun _ => 1 / 2, fun _ => 0, fun _ => 3,
      fun _ => 20, fun _ => 10⟩ (allClose_refl _)
  rw [hs]
  constructor
  · show Except.ok (pyClip (max ((3 : ℚ) / 10) (1 / 2)) 0 1) = _
    norm_num [pyClip]
  · show Except.ok ((2 : ℚ) + 3) = _
    norm_num

/-- C5 amended, witness: the amended theorem applied to the concrete clouds of
the 0.3/0.5 scenario on the constant-zero 200-level grid, with the grid
near-equality hypothesis discharged. -/
theorem C5_amended_witness :
    PhysicalCloud.add
      ⟨fun _ => 0, fun _ => 3 / 10, fun _ => 0, fun _ => 2,
        fun _ => 20, fun _ => 10⟩
      (⟨fun _ => 0, fun _ => 1 / 2, fun _ => 0, fun _ => 3,
        fun _ => 20, fun _ => 10⟩ : PhysicalCloud 200)
      = .ok
        { z := fun _ => 0
          cloud_area_fraction := fun _ => pyClip (max (3 / 10) (1 / 2)) 0 1
          mass_water := fun _ => 0 + 0
          mass_ice := fun _ => 2 + 3
          ice_particle_size := fun _ => min 20 20
          droplet_radius := fun _ => min 10 10 } :=
  C5_amended.1
    ⟨fun _ => 0, fun _ => 3 / 10, fun _ => 0, fun _ => 2,
      fun _ => 20, fun _ => 10⟩
    ⟨fun _ => 0, fun _ => 1 / 2, fun _ => 0, fun _ => 3,
      fun _ => 20, fun _ => 10⟩
    (allClose_refl _)

/-- C6: a HighCloud on linspace(0, 20000, 200) with cloud_top = 12000,
depth = 500 and default parameters has cloud fraction exactly 1 at every level
with 11500 < z < 12000 and exactly 0 at all other levels, and its ice mass at
each level is fraction times the default ice density 0.5 times 10^-3 times the
layer thickness. -/
theorem C6_highcloud_concrete : ∀ i : Fin 200,
    ((highCloudInit linspace200 12000 500 1 (1 / 2) 20).cloud_area_fraction i
      = if 11500 < linspace200 i ∧ linspace200 i < 12000 then 1 else 0)
    ∧ (highCloudInit linspace200 12000 500 1 (1 / 2) 20).mass_ice i
      = (highCloudInit linspace200 12000 500 1 (1 / 2) 20).cloud_area_fraction i
          * (1 / 2) * (1 / 1000) * dz_from_z linspace200 i := by
  intro i
  refine ⟨?_, rfl⟩
  show (if linspace200 i < 12000 ∧ (12000 : ℚ) - 500 < linspace200 i
        then (1 : ℚ) else 0) = _
  have h : ((linspace200 i < 12000 ∧ (12000 : ℚ) - 500 < linspace200 i)
      ↔ (11500 < linspace200 i ∧ linspace200 i < 12000)) := by
    constructor <;> rintro ⟨h1, h2⟩ <;> constructor <;> linarith
  exact if_congr h rfl rfl

/-- C7: the claimed LowCloud scenario is unreachable in the code:
LowCloud.__init__ always raises AttributeError, because it calls
interpolation_function (line 523), whose body reads self._norm_level (line
161), before _norm_level is assigned (line 525).  No LowCloud object exists on
which update_cloud_profile could leave the fields unchanged. -/
theorem C7_lowcloud_init_raises {n : ℕ} (z : Fin n → ℚ)
    (cloud_top depth cloud_fraction_in_cloud water_density dropletR : ℚ) :
    lowCloudInit z cloud_top depth cloud_fraction_in_cloud water_density
      dropletR = .error .attributeError := rfl

/-- C8: the claim is false as stated.  get_p_data_array returns an already
tagged field unchanged - without checking its level dimension against
numlevels and without carrying the requested unit tag - and in
get_waveband_data_array an array whose shape matches neither numlevels nor
numlevels x numbands raises TypeError, not a size-mismatch error. -/
theorem C8_counterexample :
    get_p_data_array (.tagged ⟨[1, 2, 3], "foo"⟩) "kg m^-2" 5
      = .ok ⟨[1, 2, 3], "foo"⟩
    ∧ ([1, 2, 3] : List ℚ).length ≠ 5
    ∧ get_waveband_data_array (.array1 [1, 2, 3]) "dimensionless" 5 true
      = .error .typeError
    ∧ PyErr.typeError ≠ PyErr.valueError := by
  refine ⟨rfl, by decide, rfl, by decide⟩

/-- C8 amended: converting a scalar or a per-level array of matching length
yields a field of exactly numlevels values carrying the requested unit tag; an
already-tagged field is returned unchanged with no shape or unit enforcement;
a wrong-shaped array fails with ValueError in the per-level converter but with
TypeError in the per-band converter; any other input kind fails with
TypeError. -/
theorem C8_amended (numlevels : ℕ) (u : String) (x : ℚ) (xs : List ℚ)
    (xss : List (List ℚ)) (d : PDataArray) (dw : WDataArray) (sw : Bool) :
    get_p_data_array (.scalar x) u numlevels
      = .ok ⟨List.replicate numlevels x, u⟩
    ∧ (get_p_data_array (.scalar x) u numlevels).map (fun f => f.values.length)
      = .ok numlevels
    ∧ (get_p_data_array (.scalar x) u numlevels).map (fun f => f.units) = .ok u
    ∧ get_p_data_array (.array1 xs) u numlevels
      = (if xs.length = numlevels then .ok ⟨xs, u⟩ else .error .valueError)
    ∧ get_p_data_array (.array2 xss) u numlevels = .error .valueError
    ∧ get_p_data_array (.tagged d) u numlevels = .ok d
    ∧ get_p_data_array .other u numlevels = .error .typeError
    ∧ get_waveband_data_array (.scalar x) u numlevels sw
      = .ok ⟨List.replicate numlevels (List.replicate (numbandsOf sw) x), u⟩
    ∧ get_waveband_data_array (.array1 xs) u numlevels sw
      = (if xs.length = numlevels then
          .ok ⟨xs.map (fun v => List.replicate (numbandsOf sw) v), u⟩
        else .error .typeError)
    ∧ get_waveband_data_array (.tagged dw) u numlevels sw = .ok dw
    ∧ get_waveband_data_array .other u numlevels sw = .error .typeError := by
  refine ⟨rfl, ?_, ?_, rfl, rfl, rfl, rfl, rfl, rfl, rfl, rfl⟩
  · simp [get_p_data_array, Except.map]
  · simp [get_p_data_array, Except.map]

/-- C9: the claim is false as stated.  Constructing a cloud on a five-level
grid with the cloud fraction supplied as an already-tagged field of only three
values succeeds, and the resulting cloud fraction field has level dimension 3,
not len(z) = 5: tagged inputs bypass the shape validation. -/
theorem C9_counterexample :
    (cloud_init [0, 1, 2, 3, 4]
        (.tagged ⟨[1, 2, 3], "dimensionless"⟩)
        (.scalar 0) (.scalar 0) (.scalar 20) (.scalar 10)
        (.scalar 0) (.scalar 0) (.scalar 0) (.scalar (17 / 20))
        (.scalar (9 / 10))).map (fun c => c.cloud_area_fraction.values.length)
      = .ok 3
    ∧ ([0, 1, 2, 3, 4] : List ℚ).length = 5 := by
  exact ⟨rfl, rfl⟩

/-- C9 amended: after construction from inputs none of which is an
already-tagged field, the level dimension of every property field equals
len(z), and every per-band field has exactly 14 shortwave or 16 longwave band
entries; an already-tagged input is stored as given, so a mis-shaped tagged
field can violate the invariant at construction.  The invariant is maintained
by every call to update_cloud_profile: with the level count model-wide
constant (spec section 3), the fields rebuilt by the DirectInputCloud and
HighCloud updates have level dimension equal to the length of the cloud's
current grid and keep their 14 or 16 band entries (the ClearSky and
PhysicalCloud updates are no-ops, and a LowCloud is never constructed, see
the C7 result). -/
theorem C9_amended (z : List ℚ) (cf mi mw ips dr : PInput)
    (lw sw fsf ap sa : WInput) (c : BaseCloudFields)
    (hok : cloud_init z cf mi mw ips dr lw sw fsf ap sa = .ok c)
    (hcf : cf.isTagged = false) (hmi : mi.isTagged = false)
    (hmw : mw.isTagged = false) (hips : ips.isTagged = false)
    (hdr : dr.isTagged = false) (hlw : lw.isTagged = false)
    (hsw : sw.isTagged = false) (hfsf : fsf.isTagged = false)
    (hap : ap.isTagged = false) (hsa : sa.isTagged = false) :
    c.mass_content_of_cloud_liquid_water.values.length = z.length
    ∧ c.mass_content_of_cloud_ice.values.length = z.length
    ∧ c.cloud_area_fraction.values.length = z.length
    ∧ c.cloud_ice_particle_size.values.length = z.length
    ∧ c.cloud_water_droplet_radius.values.length = z.length
    ∧ c.longwave_optical_thickness.values.length = z.length
    ∧ (∀ r ∈ c.longwave_optical_thickness.values, r.length = 16)
    ∧ c.cloud_forward_scattering_fraction.values.length = z.length
    ∧ (∀ r ∈ c.cloud_forward_scattering_fraction.values, r.length = 14)
    ∧ c.cloud_asymmetry_parameter.values.length = z.length
    ∧ (∀ r ∈ c.cloud_asymmetry_parameter.values, r.length = 14)
    ∧ c.shortwave_optical_thickness.values.length = z.length
    ∧ (∀ r ∈ c.shortwave_optical_thickness.values, r.length = 14)
    ∧ c.single_scattering_albedo.values.length = z.length
    ∧ (∀ r ∈ c.single_scattering_albedo.values, r.length = 14)
    ∧ (∀ (m : ℕ) (dc : DirectInputCloud m) (z2 : Fin m → ℚ),
        (List.ofFn (directInputCloudUpdate dc z2).cloud_area_fraction).length
          = (List.ofFn (directInputCloudUpdate dc z2).z).length
        ∧ (∀ i, (List.ofFn
            ((directInputCloudUpdate dc z2).sw_optical_thickness i)).length = 14)
        ∧ (∀ i, (List.ofFn
            ((directInputCloudUpdate dc z2).lw_optical_thickness i)).length = 16))
    ∧ (∀ (m : ℕ) (hc : HighCloud m) (z2 : Fin m → ℚ) (norm_new : PyScalar),
        (List.ofFn (highCloudUpdate hc z2 norm_new).1).length
          = (List.ofFn z2).length
        ∧ (List.ofFn (highCloudUpdate hc z2 norm_new).2).length
          = (List.ofFn z2).length) := by
  rw [cloud_init] at hok
  obtain ⟨dmw, hdmw, hok⟩ := except_bind_ok _ _ _ hok
  obtain ⟨dmi, hdmi, hok⟩ := except_bind_ok _ _ _ hok
  obtain ⟨dcf, hdcf, hok⟩ := except_bind_ok _ _ _ hok
  obtain ⟨dips, hdips, hok⟩ := except_bind_ok _ _ _ hok
  obtain ⟨ddr, hddr, hok⟩ := except_bind_ok _ _ _ hok
  obtain ⟨dlw, hdlw, hok⟩ := except_bind_ok _ _ _ hok
  obtain ⟨dfsf, hdfsf, hok⟩ := except_bind_ok _ _ _ hok
  obtain ⟨dap, hdap, hok⟩ := except_bind_ok _ _ _ hok
  obtain ⟨dsw, hdsw, hok⟩ := except_bind_ok _ _ _ hok
  obtain ⟨dsa, hdsa, hok⟩ := except_bind_ok _ _ _ hok
  have hc : c = ⟨dmw, dmi, dcf, dips, ddr, dlw, dfsf, dap, dsw, dsa⟩ := by
    simpa [pure, Except.pure] using hok.symm
  subst hc
  have h16 : numbandsOf false = 16 := rfl
  have h14 : numbandsOf true = 14 := rfl
  refine ⟨get_p_ok_length _ _ _ _ hdmw hmw, get_p_ok_length _ _ _ _ hdmi hmi,
    get_p_ok_length _ _ _ _ hdcf hcf, get_p_ok_length _ _ _ _ hdips hips,
    get_p_ok_length _ _ _ _ hddr hdr,
    (get_waveband_ok_shape _ _ _ _ _ hdlw hlw).1,
    h16 ▸ (get_waveband_ok_shape _ _ _ _ _ hdlw hlw).2,
    (get_waveband_ok_shape _ _ _ _ _ hdfsf hfsf).1,
    h14 ▸ (get_waveband_ok_shape _ _ _ _ _ hdfsf hfsf).2,
    (get_waveband_ok_shape _ _ _ _ _ hdap hap).1,
    h14 ▸ (get_waveband_ok_shape _ _ _ _ _ hdap hap).2,
    (get_waveband_ok_shape _ _ _ _ _ hdsw hsw).1,
    h14 ▸ (get_waveband_ok_shape _ _ _ _ _ hdsw hsw).2,
    (get_waveband_ok_shape _ _ _ _ _ hdsa hsa).1,
    h14 ▸ (get_waveband_ok_shape _ _ _ _ _ hdsa hsa).2,
    fun m dc z2 => ⟨by simp, fun i => by simp, fun i => by simp⟩,
    fun m hc z2 norm_new => ⟨by simp, by simp⟩⟩

/-- C9 amended, witness: a concrete all-scalar construction on a two-level
grid satisfies the invariant. -/
theorem C9_amended_witness :
    cloud_init [100, 200] (.scalar (1 / 2)) (.scalar 0) (.scalar 0)
        (.scalar 20) (.scalar 10) (.scalar 0) (.scalar 0) (.scalar 0)
        (.scalar (17 / 20)) (.scalar (9 / 10))
      = .ok ⟨⟨[0, 0], "kg m^-2"⟩, ⟨[0, 0], "kg m^-2"⟩,
          ⟨[1 / 2, 1 / 2], "dimensionless"⟩, ⟨[20, 20], "micrometers"⟩,
          ⟨[10, 10], "micrometers"⟩,
          ⟨[List.replicate 16 0, List.replicate 16 0], "dimensionless"⟩,
          ⟨[List.replicate 14 0, List.replicate 14 0], "dimensionless"⟩,
          ⟨[List.replicate 14 (17 / 20), List.replicate 14 (17 / 20)], "dimensionless"⟩,
          ⟨[List.replicate 14 0, List.replicate 14 0], "dimensionless"⟩,
          ⟨[List.replicate 14 (9 / 10), List.replicate 14 (9 / 10)], "dimensionless"⟩⟩
    ∧ (⟨[1 / 2, 1 / 2], "dimensionless"⟩ : PDataArray).values.length
        = ([100, 200] : List ℚ).length := by
  have h := C9_amended [100, 200] (.scalar (1 / 2)) (.scalar 0) (.scalar 0)
    (.scalar 20) (.scalar 10) (.scalar 0) (.scalar 0) (.scalar 0)
    (.scalar (17 / 20)) (.scalar (9 / 10)) _ rfl rfl rfl rfl rfl rfl rfl rfl
    rfl rfl rfl
  exact ⟨rfl, h.2.2.1⟩

/-- C10: constructing a CloudEnsemble from two or more member clouds whose
classes define no addition operator (ClearSky, HighCloud, LowCloud - as in the
class docstring's own CloudEnsemble(HighCloud(...), LowCloud(...)) example)
raises TypeError during construction: superpose folds the members with +, and
already the first + fails with unsupported operand types. -/
theorem C10_no_add_typeerror {n : ℕ} (c0 c1 : AnyCloud n)
    (rest : List (AnyCloud n)) (h0 : c0.lacksAdd = true)
    (h1 : c1.lacksAdd = true) (hrest : ∀ c ∈ rest, c.lacksAdd = true) :
    cloudEnsembleInit c0 (c1 :: rest) = .error .typeError := by
  have hadd : cloudAdd c0 c1 = .error .typeError := by
    cases c0 with
    | clearsky c => rfl
    | high c => rfl
    | low c => rfl
    | physical c => simp [AnyCloud.lacksAdd] at h0
    | direct c => simp [AnyCloud.lacksAdd] at h0
  rw [cloudEnsembleInit, superpose, List.foldlM, hadd]
  rfl

/-- C10 witness: the ensemble of a concrete HighCloud and a concrete ClearSky
cloud on a shared two-level grid fails with TypeError at construction. -/
theorem C10_witness :
    cloudEnsembleInit
      (.high (highCloudInit (fun i : Fin 2 => (i : ℚ) + 1) 2 1 1 (1 / 2) 20))
      [.clearsky ⟨fun i => (i : ℚ) + 1⟩] = .error .typeError :=
  C10_no_add_typeerror _ _ _ rfl rfl (by intro c hc; cases hc)
